import Mathlib

/-!
Verification development for the `demo_create_api_gateway` repository
(`src/app/api/assistant/route.ts`).

The source is a single Next.js route consisting of
* `createApiGateway`: three sequential Google API Gateway creation calls
  wrapped in a try/catch, returning a JSON-serialized success or error record;
* a `POST` handler: parse the request body, call the completion service,
  optionally execute the single known tool, reconcile the result through a
  second completion call, and emit an HTTP response.

The embedding below models strings as `List Char`, the two external services
(completion service, resource-management service) as demonic oracles supplying
the outcome of each remote call, and the handler as a pure function that also
returns the trace of external calls it performed, in order.
-/

namespace AssistantRoute

/-- Strings of the embedded program, as lists of characters. -/
abbrev Str := List Char

/-- Embed a Lean string literal. -/
def str (s : String) : Str := s.data

/-- The `"` character (written by code point to keep literals unambiguous). -/
def dq : Char := Char.ofNat 34

/-- The `\` character. -/
def bs : Char := Char.ofNat 92

/-- The `{` character. -/
def lbrace : Char := Char.ofNat 123

/-- The `}` character. -/
def rbrace : Char := Char.ofNat 125

/-- Newline. -/
def nl : Char := Char.ofNat 10

/-- Tab. -/
def tabc : Char := Char.ofNat 9

/-- Carriage return. -/
def crc : Char := Char.ofNat 13

/-- JSON values, as produced by `JSON.parse` (numbers kept as raw text,
which is all the route ever does with them). -/
inductive Json where
  | null : Json
  | bool (b : Bool) : Json
  | num (raw : Str) : Json
  | str (s : Str) : Json
  | arr (items : List Json) : Json
  | obj (fields : List (Str × Json)) : Json

/-- Field lookup in a parsed JSON object (JS property access). -/
def lookupField : List (Str × Json) → Str → Option Json
  | [], _ => none
  | (k, v) :: rest, key => if k = key then some v else lookupField rest key

/-- JSON whitespace. -/
def isWs (c : Char) : Bool := c == ' ' || c == nl || c == tabc || c == crc

/-- Drop leading JSON whitespace. -/
def skipWs (s : Str) : Str := s.dropWhile isWs

/-- Match an exact literal, returning the rest of the input. -/
def takeLit : Str → Str → Option Str
  | [], s => some s
  | _ :: _, [] => none
  | l :: ls, c :: cs => if c == l then takeLit ls cs else none

/-- Decode a single JSON string escape character (the character after `\`). -/
def decodeEscape (c : Char) : Option Char :=
  if c == dq then some dq
  else if c == bs then some bs
  else if c == '/' then some '/'
  else if c == 'n' then some nl
  else if c == 't' then some tabc
  else if c == 'r' then some crc
  else if c == 'b' then some (Char.ofNat 8)
  else if c == 'f' then some (Char.ofNat 12)
  else none

/-- Hex digit value, by code point: `0`-`9` are 48-57, `a`-`f` 97-102,
`A`-`F` 65-70. -/
def hexVal (c : Char) : Option Nat :=
  let n := c.toNat
  if 48 ≤ n && n ≤ 57 then some (n - 48)
  else if 97 ≤ n && n ≤ 102 then some (n - 87)
  else if 65 ≤ n && n ≤ 70 then some (n - 55)
  else none

/-- Parse the body of a JSON string (after the opening quote), returning the
decoded characters and the rest of the input after the closing quote. -/
def parseStringBody : Str → Except Str (Str × Str)
  | [] => .error (str "Unterminated string in JSON")
  | c :: rest =>
    if c == dq then .ok ([], rest)
    else if c == bs then
      match rest with
      | [] => .error (str "Unterminated string in JSON")
      | e :: rest2 =>
        if e == 'u' then
          match rest2 with
          | h1 :: h2 :: h3 :: h4 :: rest3 =>
            match hexVal h1, hexVal h2, hexVal h3, hexVal h4 with
            | some a, some b, some c3, some d =>
              match parseStringBody rest3 with
              | .ok (tail, rem) =>
                .ok (Char.ofNat (((a * 16 + b) * 16 + c3) * 16 + d) :: tail, rem)
              | .error msg => .error msg
            | _, _, _, _ => .error (str "Bad Unicode escape in JSON")
          | _ => .error (str "Bad Unicode escape in JSON")
        else
          match decodeEscape e with
          | some d =>
            match parseStringBody rest2 with
            | .ok (tail, rem) => .ok (d :: tail, rem)
            | .error msg => .error msg
          | none => .error (str "Bad escape in JSON")
    else
      match parseStringBody rest with
      | .ok (tail, rem) => .ok (c :: tail, rem)
      | .error msg => .error msg

/-- Characters that may continue a JSON numeric literal. -/
def numChar (c : Char) : Bool :=
  c.isDigit || c == '-' || c == '+' || c == '.' || c == 'e' || c == 'E'

mutual

/-- Fuel-based recursive-descent parser for a single JSON value; models the
JavaScript `JSON.parse` builtin.  Returns the value and the unconsumed rest. -/
def parseValue : Nat → Str → Except Str (Json × Str)
  | 0, _ => .error (str "JSON input too deeply nested")
  | fuel + 1, s =>
    match skipWs s with
    | [] => .error (str "Unexpected end of JSON input")
    | c :: rest =>
      if c == lbrace then
        match skipWs rest with
        | c2 :: rest2 =>
          if c2 == rbrace then .ok (.obj [], rest2)
          else
            match parseMembers fuel (c2 :: rest2) with
            | .ok (fields, rem) => .ok (.obj fields, rem)
            | .error msg => .error msg
        | [] => .error (str "Unexpected end of JSON input")
      else if c == '[' then
        match skipWs rest with
        | c2 :: rest2 =>
          if c2 == ']' then .ok (.arr [], rest2)
          else
            match parseItems fuel (c2 :: rest2) with
            | .ok (items, rem) => .ok (.arr items, rem)
            | .error msg => .error msg
        | [] => .error (str "Unexpected end of JSON input")
      else if c == dq then
        match parseStringBody rest with
        | .ok (sval, rem) => .ok (.str sval, rem)
        | .error msg => .error msg
      else if c == 't' then
        match takeLit (str "rue") rest with
        | some rem => .ok (.bool true, rem)
        | none => .error (str "Unexpected token in JSON")
      else if c == 'f' then
        match takeLit (str "alse") rest with
        | some rem => .ok (.bool false, rem)
        | none => .error (str "Unexpected token in JSON")
      else if c == 'n' then
        match takeLit (str "ull") rest with
        | some rem => .ok (.null, rem)
        | none => .error (str "Unexpected token in JSON")
      else if c == '-' || c.isDigit then
        .ok (.num ((c :: rest).takeWhile numChar), (c :: rest).dropWhile numChar)
      else .error (str "Unexpected token in JSON")

/-- Parse the members of a JSON object after `{` (at least one member). -/
def parseMembers : Nat → Str → Except Str (List (Str × Json) × Str)
  | 0, _ => .error (str "JSON input too deeply nested")
  | fuel + 1, s =>
    match skipWs s with
    | [] => .error (str "Unexpected end of JSON input")
    | c :: rest =>
      if c == dq then
        match parseStringBody rest with
        | .error msg => .error msg
        | .ok (key, r1) =>
          match skipWs r1 with
          | c2 :: r2 =>
            if c2 == ':' then
              match parseValue fuel r2 with
              | .error msg => .error msg
              | .ok (v, r3) =>
                match skipWs r3 with
                | c3 :: r4 =>
                  if c3 == rbrace then .ok ([(key, v)], r4)
                  else if c3 == ',' then
                    match parseMembers fuel r4 with
                    | .ok (fields, rem) => .ok ((key, v) :: fields, rem)
                    | .error msg => .error msg
                  else .error (str "Unexpected token in JSON")
                | [] => .error (str "Unexpected end of JSON input")
            else .error (str "Unexpected token in JSON")
          | [] => .error (str "Unexpected end of JSON input")
      else .error (str "Unexpected token in JSON")

/-- Parse the items of a JSON array after `[` (at least one item). -/
def parseItems : Nat → Str → Except Str (List Json × Str)
  | 0, _ => .error (str "JSON input too deeply nested")
  | fuel + 1, s =>
    match parseValue fuel s with
    | .error msg => .error msg
    | .ok (v, r1) =>
      match skipWs r1 with
      | c :: r2 =>
        if c == ']' then .ok ([v], r2)
        else if c == ',' then
          match parseItems fuel r2 with
          | .ok (items, rem) => .ok (v :: items, rem)
          | .error msg => .error msg
        else .error (str "Unexpected token in JSON")
      | [] => .error (str "Unexpected end of JSON input")

end

/-- `JSON.parse`: parse a complete JSON document, rejecting trailing junk. -/
def parseJson (s : Str) : Except Str Json :=
  match parseValue (s.length + 1) s with
  | .error msg => .error msg
  | .ok (j, rest) =>
    if (skipWs rest).isEmpty then .ok j
    else .error (str "Unexpected non-whitespace character after JSON")

/-! ## JavaScript value coercion

The source casts the parsed arguments with `as CreateApiGatewayArgs` without
any runtime validation, so at runtime a field may be any JSON value or absent
(`undefined`).  Template-literal interpolation then coerces the value to a
string; `coerceJson` models that coercion and `coerceField` models reading a
possibly-absent property for interpolation. -/

mutual

/-- JavaScript string coercion of a JSON value (as in template literals). -/
def coerceJson : Json → Str
  | .null => str "null"
  | .bool true => str "true"
  | .bool false => str "false"
  | .num raw => raw
  | .str s => s
  | .arr items => coerceItems items
  | .obj _ => str "[object Object]"

/-- JavaScript `Array.prototype.toString`: elements joined with commas. -/
def coerceItems : List Json → Str
  | [] => []
  | [x] => coerceJson x
  | x :: y :: rest => coerceJson x ++ [','] ++ coerceItems (y :: rest)

end

/-- A possibly-`undefined` property read, coerced to a string as JavaScript
template interpolation would. -/
def coerceField (v : Option Json) : Str :=
  match v with
  | none => str "undefined"
  | some j => coerceJson j

/-! ## The Action Executor: `createApiGateway` -/

/-- `CreateApiGatewayArgs` from the source: the four argument strings. -/
structure CreateApiGatewayArgs where
  project_id : Str
  gateway_id : Str
  region : Str
  openapi_spec_url : Str

/-- The unchecked `JSON.parse(rawArgs) as CreateApiGatewayArgs` cast: each
field is whatever property the parsed value carries, coerced at interpolation
time (absent fields interpolate as `"undefined"`).  One known abstraction:
in JavaScript a `null` argument value throws a TypeError at
`createApiGateway`'s parameter destructuring — outside its internal try, so
it reaches the handler's outer catch — whereas this model coerces `null`
like any other property-less value; statements about the executor path are
therefore made for object payloads, where the two agree. -/
def asArgs (j : Json) : CreateApiGatewayArgs :=
  let get := fun (key : String) =>
    match j with
    | .obj fields => coerceField (lookupField fields (str key))
    | _ => coerceField none
  ⟨get "project_id", get "gateway_id", get "region", get "openapi_spec_url"⟩

/-- One request to the resource-management service, in the order the source
issues them: create the API, create the API config, create the Gateway. -/
inductive GatewayCall where
  | apisCreate (parent apiId : Str)
  | configsCreate (parent apiConfigId : Str)
  | gatewaysCreate (parent gatewayId apiConfig : Str)

/-- Demonic oracle for the resource-management service: the outcome of each
of the three creation calls, either the created resource's `data.name`
(`.ok`) or the thrown error's message (`.error`). -/
structure GwEnv where
  apisCreate : Except Str Str
  configsCreate : Except Str Str
  gatewaysCreate : Except Str Str

/-- Status discriminator of an action result. -/
inductive Status where
  | success
  | error
deriving DecidableEq

/-- The structured payload `createApiGateway` serializes: either the three
created resources' names or an error message. -/
inductive ActionResult where
  | success (api api_config gateway : Str)
  | error (message : Str)

/-- The status discriminator carried by an `ActionResult`. -/
def ActionResult.statusOf : ActionResult → Status
  | .success _ _ _ => .success
  | .error _ => .error

/-- JSON string escaping as performed by `JSON.stringify` for one character. -/
def escapeChar (c : Char) : Str :=
  if c == dq then [bs, dq]
  else if c == bs then [bs, bs]
  else if c == nl then [bs, 'n']
  else if c == tabc then [bs, 't']
  else if c == crc then [bs, 'r']
  else [c]

/-- JSON string escaping as performed by `JSON.stringify`. -/
def escapeStr (s : Str) : Str := s.flatMap escapeChar

/-- A serialized JSON string literal: `"…"` with escaping. -/
def jstr (s : Str) : Str := [dq] ++ escapeStr s ++ [dq]

/-- A serialized JSON object member `"key":value` (keys in the source are
plain identifiers needing no escaping). -/
def jmember (key : String) (v : Str) : Str := jstr (str key) ++ [':'] ++ v

/-- `JSON.stringify` of the exact object literals the source builds, member
order as written in the source (`status` first). -/
def serializeActionResult : ActionResult → Str
  | .success api api_config gateway =>
    [lbrace] ++ jmember "status" (jstr (str "success"))
      ++ [','] ++ jmember "api" (jstr api)
      ++ [','] ++ jmember "api_config" (jstr api_config)
      ++ [','] ++ jmember "gateway" (jstr gateway)
      ++ [rbrace]
  | .error message =>
    [lbrace] ++ jmember "status" (jstr (str "error"))
      ++ [','] ++ jmember "message" (jstr message)
      ++ [rbrace]

/-- `createApiGateway` from the source.  Takes the four argument strings and
the resource-management oracle; returns the ordered trace of creation calls
it issued and the serialized result string.  The entire body is wrapped in
try/catch in the source, so any thrown message becomes an error result. -/
def createApiGateway (args : CreateApiGatewayArgs) (env : GwEnv) :
    List GatewayCall × Str :=
  let apiParent := str "projects/" ++ args.project_id ++ str "/locations/global"
  let call1 := GatewayCall.apisCreate apiParent args.gateway_id
  match env.apisCreate with
  | .error e => ([call1], serializeActionResult (.error e))
  | .ok apiName =>
    let configParent := apiParent ++ str "/apis/" ++ args.gateway_id
    let call2 := GatewayCall.configsCreate configParent
      (args.gateway_id ++ str "-config")
    match env.configsCreate with
    | .error e => ([call1, call2], serializeActionResult (.error e))
    | .ok configName =>
      let gatewayParent := str "projects/" ++ args.project_id
        ++ str "/locations/" ++ args.region
      let call3 := GatewayCall.gatewaysCreate gatewayParent args.gateway_id
        configName
      match env.gatewaysCreate with
      | .error e => ([call1, call2, call3], serializeActionResult (.error e))
      | .ok gatewayName =>
        ([call1, call2, call3],
         serializeActionResult (.success apiName configName gatewayName))

/-! ## The `POST` handler -/

/-- Conversation roles. -/
inductive Role where
  | system
  | user
  | assistant
  | tool

/-- One tool call as emitted by the completion service
(`choices[0].message.tool_calls[i]`): its id, its `type` tag, and the called
function's name and raw-text argument payload. -/
structure ToolCall where
  id : Str
  type : Str
  name : Str
  arguments : Str

/-- One conversation message, as the source builds them: a role, a content
value (`none` models JavaScript `undefined`), the attached tool calls for an
assistant message, and the `tool_call_id` for a tool message. -/
structure ChatMessage where
  role : Role
  content : Option Json
  tool_calls : List ToolCall
  tool_call_id : Option Str

/-- `choices[0].message` of a completion response: its text content (`none`
models `null`) and its tool calls (`none` models an absent field). -/
structure CompletionMessage where
  content : Option Str
  tool_calls : Option (List ToolCall)

/-- Demonic oracle for one request: the raw request body text, the outcome of
the first and second completion-service calls (`.error` models a thrown
message), and the resource-management oracle. -/
structure PostEnv where
  body : Str
  completion1 : Except Str CompletionMessage
  completion2 : Except Str CompletionMessage
  gw : GwEnv

/-- One external call performed by the handler, in order: a
completion-service call carrying the exact conversation sent, or a
resource-management call. -/
inductive ExtCall where
  | completion (messages : List ChatMessage)
  | gateway (call : GatewayCall)

/-- An HTTP response: status code and JSON body. -/
structure HttpResponse where
  status : Nat
  body : Json

/-- `NextResponse.json({ assistantResponse: text })` (default status 200). -/
def jsonOk (text : Str) : HttpResponse :=
  ⟨200, .obj [(str "assistantResponse", .str text)]⟩

/-- `NextResponse.json({ error: true, message }, { status: 500 })`. -/
def jsonErr (message : Str) : HttpResponse :=
  ⟨500, .obj [(str "error", .bool true), (str "message", .str message)]⟩

/-- The system prompt from the source. -/
def systemPrompt : Str :=
  str "You are assisting with Google API Gateway migrations. Use create_api_gateway if the user wants to create or migrate an API."

/-- The initial system message. -/
def systemMsg : ChatMessage := ⟨Role.system, some (.str systemPrompt), [], none⟩

/-- The user message carrying the (possibly `undefined`) `userMessage` value. -/
def userMsg (u : Option Json) : ChatMessage := ⟨Role.user, u, [], none⟩

/-- The assistant message the source pushes before the second completion:
blank text content and exactly the one handled tool call. -/
def assistantToolMsg (fc : ToolCall) : ChatMessage :=
  ⟨Role.assistant, some (.str []), [fc], none⟩

/-- The tool message the source pushes: the serialized result keyed by the
invocation id. -/
def toolResultMsg (id result : Str) : ChatMessage :=
  ⟨Role.tool, some (.str result), [], some id⟩

/-- The fallback text for a tool call whose `type` is not `"function"`. -/
def unexpectedStructureText : Str :=
  str "Unexpected tool call structure. Please try again or contact support."

/-- `const ... = await request.json()`: destructuring the parsed
body.  Destructuring `null` throws; any other non-object value simply yields
an `undefined` property. -/
def getUserMessage : Json → Except Str (Option Json)
  | .null => .error (str "Cannot destructure property userMessage of null")
  | .obj fields => .ok (lookupField fields (str "userMessage"))
  | _ => .ok none

/-- The `POST` handler from the source, as a function of the request oracle.
Returns the ordered trace of external calls performed and the HTTP response.
The whole body is wrapped in try/catch: any thrown message becomes a 500
`{ error: true, message }` response. -/
def POST (env : PostEnv) : List ExtCall × HttpResponse :=
  match (parseJson env.body).bind getUserMessage with
  | .error e => ([], jsonErr e)
  | .ok userMessage =>
    let messages : List ChatMessage := [systemMsg, userMsg userMessage]
    let trace1 : List ExtCall := [.completion messages]
    match env.completion1 with
    | .error e => (trace1, jsonErr e)
    | .ok completionMsg =>
      match completionMsg.tool_calls with
      | none => (trace1, jsonOk (completionMsg.content.getD []))
      | some [] => (trace1, jsonOk (completionMsg.content.getD []))
      | some (functionCall :: _) =>
        if functionCall.type = str "function" then
          match parseJson functionCall.arguments with
          | .error e => (trace1, jsonErr e)
          | .ok argsJson =>
            let args := asArgs argsJson
            let step :=
              if functionCall.name = str "create_api_gateway" then
                let run := createApiGateway args env.gw
                (run.1.map ExtCall.gateway, run.2)
              else
                (([] : List ExtCall),
                 serializeActionResult
                   (.error (str "Unknown function: " ++ functionCall.name)))
            let messages2 := messages
              ++ [assistantToolMsg functionCall,
                  toolResultMsg functionCall.id step.2]
            let trace2 := trace1 ++ step.1 ++ [.completion messages2]
            match env.completion2 with
            | .error e => (trace2, jsonErr e)
            | .ok completionMsg2 =>
              (trace2, jsonOk (completionMsg2.content.getD []))
        else
          (trace1, jsonOk unexpectedStructureText)

/-! ## Status extraction from serialized results -/

/-- The serialized opening of a result object with the given status tag:
the text rendering of the object up to and including the status value. -/
def statusOpening (tag : String) : Str :=
  [lbrace] ++ jmember "status" (jstr (str tag))

/-- Read the `status` discriminator back off a serialized result: the
serializer writes the `status` member first, so the discriminator is
determined by the opening of the text. -/
def parseStatus (s : Str) : Option Status :=
  match takeLit (statusOpening "success") s with
  | some _ => some .success
  | none =>
    match takeLit (statusOpening "error") s with
    | some _ => some .error
    | none => none

/-! ## Abbreviations for the creation-call chain (used in statements) -/

/-- The parent of the API resource: `projects/…/locations/global`. -/
def apiParentOf (args : CreateApiGatewayArgs) : Str :=
  str "projects/" ++ args.project_id ++ str "/locations/global"

/-- Step 1, as issued by the source: create the API. -/
def apiCallOf (args : CreateApiGatewayArgs) : GatewayCall :=
  .apisCreate (apiParentOf args) args.gateway_id

/-- Step 2, as issued by the source: create the API config. -/
def configCallOf (args : CreateApiGatewayArgs) : GatewayCall :=
  .configsCreate (apiParentOf args ++ str "/apis/" ++ args.gateway_id)
    (args.gateway_id ++ str "-config")

/-- Step 3, as issued by the source: create the Gateway, referencing the
config name returned by step 2. -/
def gatewayCallOf (args : CreateApiGatewayArgs) (configName : Str) :
    GatewayCall :=
  .gatewaysCreate (str "projects/" ++ args.project_id ++ str "/locations/"
      ++ args.region)
    args.gateway_id configName

/-- The config name step 3 would reference (meaningful only when step 2
succeeded). -/
def configNameOf (env : GwEnv) : Str :=
  match env.configsCreate with
  | .ok n => n
  | .error _ => []

/-- The full three-call chain in the order the source issues it. -/
def fullChain (args : CreateApiGatewayArgs) (env : GwEnv) : List GatewayCall :=
  [apiCallOf args, configCallOf args, gatewayCallOf args (configNameOf env)]

/-! ## Concrete request material for witnesses and counterexamples -/

/-- A well-formed argument payload carrying all four required fields. -/
def rawArgsFull : Str :=
  [lbrace]
    ++ str "\"project_id\":\"p\",\"gateway_id\":\"g\",\"region\":\"r\",\"openapi_spec_url\":\"u\""
    ++ [rbrace]

/-- The parse of `rawArgsFull`. -/
def argsJsonFull : Json := .obj
  [(str "project_id", .str (str "p")),
   (str "gateway_id", .str (str "g")),
   (str "region", .str (str "r")),
   (str "openapi_spec_url", .str (str "u"))]

/-- A request body carrying `userMessage: "hi"`. -/
def bodyHi : Str := [lbrace] ++ str "\"userMessage\":\"hi\"" ++ [rbrace]

/-- The `userMessage` value parsed out of `bodyHi`. -/
def userHi : Option Json := some (.str (str "hi"))

/-- A request body that is an empty JSON object (no `userMessage`). -/
def bodyEmptyObj : Str := [lbrace] ++ [rbrace]

/-- A resource-management oracle where all three creations are accepted. -/
def gwAllOk : GwEnv := ⟨.ok (str "apiName"), .ok (str "cfgName"), .ok (str "gwName")⟩

/-- A resource-management oracle where step 2 is rejected. -/
def gwStep2Fails : GwEnv := ⟨.ok (str "apiName"), .error (str "quota exceeded"), .ok (str "gwName")⟩

/-- Concrete four-string arguments. -/
def argsPGRU : CreateApiGatewayArgs := ⟨str "p", str "g", str "r", str "u"⟩

/-- A completion message that is plain text, no tool calls. -/
def compPlain : CompletionMessage := ⟨some (str "hello"), none⟩

/-- A completion message for the final (reconciliation) round. -/
def compDone : CompletionMessage := ⟨some (str "done"), none⟩

/-- A proper tool call for the known tool with a well-formed payload. -/
def fcGood : ToolCall :=
  ⟨str "call1", str "function", str "create_api_gateway", rawArgsFull⟩

/-- A tool call naming an unknown tool, with a well-formed payload. -/
def fcUnknown : ToolCall :=
  ⟨str "call1", str "function", str "other_tool", rawArgsFull⟩

/-- A tool call naming an unknown tool, with an unparseable payload. -/
def fcUnknownBadArgs : ToolCall :=
  ⟨str "call1", str "function", str "other_tool", str "nope"⟩

/-- A tool call for the known tool with an unparseable payload. -/
def fcBadArgs : ToolCall :=
  ⟨str "call1", str "function", str "create_api_gateway", str "nope"⟩

/-- A tool call whose `type` is not `"function"`. -/
def fcWeird : ToolCall := ⟨str "call1", str "weird", str "x", str "nope"⟩

/-- A first-round completion message carrying the given tool call. -/
def compWith (fc : ToolCall) : CompletionMessage := ⟨none, some [fc]⟩

/-- Oracle: good tool call, everything accepted. -/
def envGood : PostEnv := ⟨bodyHi, .ok (compWith fcGood), .ok compDone, gwAllOk⟩

/-- Oracle: plain-text first completion. -/
def envPlain : PostEnv := ⟨bodyHi, .ok compPlain, .ok compDone, gwAllOk⟩

/-- Oracle: the first completion call throws. -/
def envUpstreamFail : PostEnv :=
  ⟨bodyHi, .error (str "rate limited"), .ok compDone, gwAllOk⟩

/-- Oracle: unknown tool name, well-formed payload. -/
def envUnknown : PostEnv := ⟨bodyHi, .ok (compWith fcUnknown), .ok compDone, gwAllOk⟩

/-- Oracle: unknown tool name, unparseable payload. -/
def envUnknownBadArgs : PostEnv :=
  ⟨bodyHi, .ok (compWith fcUnknownBadArgs), .ok compDone, gwAllOk⟩

/-- Oracle: known tool, unparseable payload. -/
def envBadArgs : PostEnv := ⟨bodyHi, .ok (compWith fcBadArgs), .ok compDone, gwAllOk⟩

/-- Oracle: first tool call is not of type `function`. -/
def envWeird : PostEnv := ⟨bodyHi, .ok (compWith fcWeird), .ok compDone, gwAllOk⟩

/-- Oracle: request body is an empty object (no `userMessage`). -/
def envNoUserMessage : PostEnv := ⟨bodyEmptyObj, .ok compPlain, .ok compDone, gwAllOk⟩

/-! ## Theorems -/

/-- The serializer writes the `status` member first, so reading the status
back off the serialized text recovers the discriminator. (Shared lemma.) -/
theorem statusOf_serialize (r : ActionResult) :
    parseStatus (serializeActionResult r) = some r.statusOf := by
  cases r <;> rfl

/-- C5: serializing an `ActionResult` (success or error) and feeding that
text as the tool-role message's content preserves the `status`
discriminator losslessly: parsing the tool-role message content recovers
the same status value. -/
theorem actionResult_status_roundtrip (r : ActionResult) (id : Str) :
    ∃ s, (toolResultMsg id (serializeActionResult r)).content = some (.str s)
      ∧ parseStatus s = some r.statusOf :=
  ⟨serializeActionResult r, rfl, by cases r <;> rfl⟩

/-- C9: `createApiGateway` never propagates an exception: whatever the
outcomes of the three remote calls (any of which may throw), it returns a
serialized result whose status is exactly `"success"` (carrying the three
resource names) or exactly `"error"` (carrying the thrown message), the
error branch absorbing every thrown value. -/
theorem createApiGateway_always_status_result
    (args : CreateApiGatewayArgs) (env : GwEnv) :
    (∃ a c g, env.apisCreate = .ok a ∧ env.configsCreate = .ok c
      ∧ env.gatewaysCreate = .ok g
      ∧ (createApiGateway args env).2 = serializeActionResult (.success a c g)
      ∧ parseStatus (createApiGateway args env).2 = some .success)
    ∨ (∃ m, (createApiGateway args env).2 = serializeActionResult (.error m)
      ∧ parseStatus (createApiGateway args env).2 = some .error
      ∧ (env.apisCreate = .error m ∨ env.configsCreate = .error m
          ∨ env.gatewaysCreate = .error m)) := by
  rcases h1 : env.apisCreate with e | a
  · exact .inr ⟨e, by simp [createApiGateway, h1, statusOf_serialize,
      ActionResult.statusOf], by simp [createApiGateway, h1,
      statusOf_serialize, ActionResult.statusOf], .inl rfl⟩
  · rcases h2 : env.configsCreate with e | c
    · exact .inr ⟨e, by simp [createApiGateway, h1, h2],
        by simp [createApiGateway, h1, h2, statusOf_serialize,
          ActionResult.statusOf], .inr (.inl rfl)⟩
    · rcases h3 : env.gatewaysCreate with e | g
      · exact .inr ⟨e, by simp [createApiGateway, h1, h2, h3],
          by simp [createApiGateway, h1, h2, h3, statusOf_serialize,
            ActionResult.statusOf], .inr (.inr rfl)⟩
      · exact .inl ⟨a, c, g, rfl, rfl, rfl,
          by simp [createApiGateway, h1, h2, h3],
          by simp [createApiGateway, h1, h2, h3, statusOf_serialize,
            ActionResult.statusOf]⟩

/-- C1: the three resource-creation calls are issued in the fixed order
API, API-config, Gateway (the trace is always an initial segment of that
chain); if the step-2 (API-config) call fails after step 1 succeeded, the
step-3 (Gateway) call is never attempted, the result is the serialized
error carrying step 2's message, and the trace holds nothing beyond the
two creation calls — in particular no rollback of step 1 is performed. -/
theorem createApiGateway_sequential_abort
    (args : CreateApiGatewayArgs) (env : GwEnv) :
    (∃ k, (createApiGateway args env).1 = (fullChain args env).take k)
    ∧ (∀ a m, env.apisCreate = .ok a → env.configsCreate = .error m →
        createApiGateway args env
          = ([apiCallOf args, configCallOf args],
             serializeActionResult (.error m))) := by
  constructor
  · rcases h1 : env.apisCreate with e | a
    · exact ⟨1, by simp [createApiGateway, h1, fullChain, apiCallOf,
        apiParentOf]⟩
    · rcases h2 : env.configsCreate with e | c
      · exact ⟨2, by simp [createApiGateway, h1, h2, fullChain, apiCallOf,
          configCallOf, apiParentOf]⟩
      · rcases h3 : env.gatewaysCreate with e | g
        · exact ⟨3, by simp [createApiGateway, h1, h2, h3, fullChain,
            apiCallOf, configCallOf, gatewayCallOf, apiParentOf,
            configNameOf]⟩
        · exact ⟨3, by simp [createApiGateway, h1, h2, h3, fullChain,
            apiCallOf, configCallOf, gatewayCallOf, apiParentOf,
            configNameOf]⟩
  · intro a m h1 h2
    simp [createApiGateway, h1, h2, apiCallOf, configCallOf, apiParentOf]

/-- Witness for C1: with projects `p`/`g`/`r`/`u` and an oracle accepting
step 1 but rejecting step 2 with "quota exceeded", exactly two calls are
issued and the result is the serialized step-2 error. -/
theorem createApiGateway_sequential_abort_witness :
    createApiGateway argsPGRU gwStep2Fails
      = ([apiCallOf argsPGRU, configCallOf argsPGRU],
         serializeActionResult (.error (str "quota exceeded"))) :=
  (createApiGateway_sequential_abort argsPGRU gwStep2Fails).2
    (str "apiName") (str "quota exceeded") rfl rfl

/-- The handler only ever answers with status 200 (`NextResponse.json`
default) or status 500 (the catch-all error response). (Shared lemma.) -/
theorem post_status_cases (env : PostEnv) :
    (POST env).2.status = 200 ∨ (POST env).2.status = 500 := by
  unfold POST
  repeat' split
  all_goals simp [jsonOk, jsonErr]

/-- Once the body has been destructured, the trace always begins with the
first completion call carrying the system and user messages. (Shared
lemma.) -/
theorem post_trace_head (env : PostEnv) (u : Option Json)
    (hbody : (parseJson env.body).bind getUserMessage = .ok u) :
    ∃ tail, (POST env).1 = .completion [systemMsg, userMsg u] :: tail := by
  unfold POST
  rw [hbody]
  dsimp only
  repeat' split
  all_goals exact ⟨_, rfl⟩

/-- C3: when the completion service returns plain text and no tool
invocation (no `tool_calls`, or an empty list), the endpoint's success
response carries exactly that text, unchanged and verbatim, as the
`assistantResponse` field, and no further external call is made. -/
theorem post_plain_text_verbatim (env : PostEnv) (u : Option Json)
    (comp : CompletionMessage) (t : Str)
    (hbody : (parseJson env.body).bind getUserMessage = .ok u)
    (hc1 : env.completion1 = .ok comp)
    (htc : comp.tool_calls = none ∨ comp.tool_calls = some [])
    (hcontent : comp.content = some t) :
    POST env = ([.completion [systemMsg, userMsg u]], jsonOk t) := by
  rcases htc with h | h <;> simp [POST, hbody, hc1, h, hcontent]

/-- Witness for C3: a plain-text completion `"hello"` is returned verbatim. -/
theorem post_plain_text_verbatim_witness :
    POST envPlain = ([.completion [systemMsg, userMsg userHi]],
      jsonOk (str "hello")) :=
  post_plain_text_verbatim envPlain userHi compPlain (str "hello")
    rfl rfl (Or.inl rfl) rfl

/-- C2: when the first completion yields one or more tool invocations (with
parseable arguments) for the known tool, the Action Executor runs at most
once — only the first invocation is acted on, whatever `rest` holds — and
the final response is derived from a second completion call whose
conversation is exactly the system message, the user message, an
assistant-role message carrying the invocation, and a tool-role message
carrying its result, in that order. -/
theorem post_first_invocation_reconciled (env : PostEnv) (u : Option Json)
    (comp : CompletionMessage) (fc : ToolCall) (rest : List ToolCall)
    (argsJson : Json) (comp2 : CompletionMessage)
    (hbody : (parseJson env.body).bind getUserMessage = .ok u)
    (hc1 : env.completion1 = .ok comp)
    (htc : comp.tool_calls = some (fc :: rest))
    (hty : fc.type = str "function")
    (hargs : parseJson fc.arguments = .ok argsJson)
    (hname : fc.name = str "create_api_gateway")
    (hc2 : env.completion2 = .ok comp2) :
    POST env =
      (.completion [systemMsg, userMsg u]
         :: ((createApiGateway (asArgs argsJson) env.gw).1.map ExtCall.gateway
             ++ [.completion [systemMsg, userMsg u, assistantToolMsg fc,
                  toolResultMsg fc.id
                    (createApiGateway (asArgs argsJson) env.gw).2]]),
       jsonOk (comp2.content.getD [])) := by
  simp [POST, hbody, hc1, htc, hty, hargs, hname, hc2]

/-- Witness for C2: a well-formed invocation of `create_api_gateway` runs
the executor once and reconciles through the exact four-message
conversation. -/
theorem post_first_invocation_reconciled_witness :
    POST envGood =
      (.completion [systemMsg, userMsg userHi]
         :: ((createApiGateway (asArgs argsJsonFull) envGood.gw).1.map
               ExtCall.gateway
             ++ [.completion [systemMsg, userMsg userHi, assistantToolMsg fcGood,
                  toolResultMsg fcGood.id
                    (createApiGateway (asArgs argsJsonFull) envGood.gw).2]]),
       jsonOk (compDone.content.getD [])) :=
  post_first_invocation_reconciled envGood userHi (compWith fcGood) fcGood []
    argsJsonFull compDone rfl rfl rfl rfl rfl rfl rfl

/-- C6: when a completion-service call itself throws, the request is fatal
with no retry and no partial result: the error is caught once and surfaced
as the JSON body carrying `error: true` and the underlying message, with
status 500.  The first conjunct also shows no second attempt is made. -/
theorem post_completion_failure_fatal (env : PostEnv) (u : Option Json)
    (hbody : (parseJson env.body).bind getUserMessage = .ok u) :
    (∀ m, env.completion1 = .error m →
        POST env = ([.completion [systemMsg, userMsg u]], jsonErr m))
    ∧ (∀ comp fc rest argsJson m, env.completion1 = .ok comp →
        comp.tool_calls = some (fc :: rest) → fc.type = str "function" →
        parseJson fc.arguments = .ok argsJson → env.completion2 = .error m →
        (POST env).2 = jsonErr m) := by
  constructor
  · intro m h
    simp [POST, hbody, h]
  · intro comp fc rest argsJson m h1 h2 h3 h4 h5
    by_cases hname : fc.name = str "create_api_gateway" <;>
      simp [POST, hbody, h1, h2, h3, h4, h5, hname]

/-- Witness for C6: a first completion call throwing "rate limited" yields
the 500 error body after exactly one attempted completion call. -/
theorem post_completion_failure_fatal_witness :
    POST envUpstreamFail = ([.completion [systemMsg, userMsg userHi]],
      jsonErr (str "rate limited")) :=
  (post_completion_failure_fatal envUpstreamFail userHi rfl).1
    (str "rate limited") rfl

/-- C10: when the first tool call's `type` is not `"function"`, the endpoint
returns the 200 success-shaped response with the fixed fallback text, and
the Action Executor is never invoked (the trace holds only the first
completion call). -/
theorem post_non_function_tool_call_fallback (env : PostEnv)
    (u : Option Json) (comp : CompletionMessage) (fc : ToolCall)
    (rest : List ToolCall)
    (hbody : (parseJson env.body).bind getUserMessage = .ok u)
    (hc1 : env.completion1 = .ok comp)
    (htc : comp.tool_calls = some (fc :: rest))
    (hty : fc.type ≠ str "function") :
    POST env = ([.completion [systemMsg, userMsg u]],
      jsonOk unexpectedStructureText) := by
  simp [POST, hbody, hc1, htc, hty]

/-- Witness for C10: a tool call of type `"weird"` yields the fixed fallback
text with no executor call. -/
theorem post_non_function_tool_call_fallback_witness :
    POST envWeird = ([.completion [systemMsg, userMsg userHi]],
      jsonOk unexpectedStructureText) :=
  post_non_function_tool_call_fallback envWeird userHi (compWith fcWeird)
    fcWeird [] rfl rfl rfl (by decide)

/-- Counterexample to C4 as stated: an invocation naming the unknown tool
`other_tool` with an unparseable payload does not produce an `ActionResult`
of kind error and performs no reconciliation round-trip — `JSON.parse` runs
before the name check, so the request dies with the 500 error body after a
single completion call. -/
theorem post_unknown_tool_unparsed_args_500 :
    (POST envUnknownBadArgs).2 = jsonErr (str "Unexpected token in JSON")
    ∧ (POST envUnknownBadArgs).1 =
        [.completion [systemMsg, userMsg userHi]] :=
  ⟨rfl, rfl⟩

/-- C4 (amended): for a tool invocation whose raw arguments parse as JSON
and whose tool name does not match `create_api_gateway`, the pipeline does
not throw: it produces the serialized `ActionResult` error identifying the
unknown name, performs the full reconciliation round-trip, and answers with
a 200- or 500-status response (never an uncaught crash). -/
theorem post_unknown_tool_error_reconciled (env : PostEnv)
    (u : Option Json) (comp : CompletionMessage) (fc : ToolCall)
    (rest : List ToolCall) (argsJson : Json)
    (hbody : (parseJson env.body).bind getUserMessage = .ok u)
    (hc1 : env.completion1 = .ok comp)
    (htc : comp.tool_calls = some (fc :: rest))
    (hty : fc.type = str "function")
    (hargs : parseJson fc.arguments = .ok argsJson)
    (hname : fc.name ≠ str "create_api_gateway") :
    (POST env).1 = [.completion [systemMsg, userMsg u],
        .completion [systemMsg, userMsg u, assistantToolMsg fc,
          toolResultMsg fc.id (serializeActionResult
            (.error (str "Unknown function: " ++ fc.name)))]]
    ∧ ((POST env).2.status = 200 ∨ (POST env).2.status = 500) := by
  constructor
  · rcases hc2 : env.completion2 with e | c2 <;>
      simp [POST, hbody, hc1, htc, hty, hargs, hname, hc2]
  · exact post_status_cases env

/-- Witness for the amended C4: an unknown tool name with a parseable
payload produces the unknown-function error result and the round-trip. -/
theorem post_unknown_tool_error_reconciled_witness :
    (POST envUnknown).1 = [.completion [systemMsg, userMsg userHi],
        .completion [systemMsg, userMsg userHi, assistantToolMsg fcUnknown,
          toolResultMsg fcUnknown.id (serializeActionResult
            (.error (str "Unknown function: " ++ fcUnknown.name)))]]
      ∧ ((POST envUnknown).2.status = 200 ∨ (POST envUnknown).2.status = 500) :=
  post_unknown_tool_error_reconciled envUnknown userHi (compWith fcUnknown)
    fcUnknown [] argsJsonFull rfl rfl rfl rfl rfl (by decide)

/-- Counterexample to C7 as stated: for a `create_api_gateway` invocation
whose raw payload is not parseable, the failure does not surface as an
`ActionResult` fed back into the conversation — the request terminates with
the 500 error body after a single completion call. -/
theorem post_malformed_args_terminates_500 :
    (POST envBadArgs).2 = jsonErr (str "Unexpected token in JSON")
    ∧ (POST envBadArgs).1 = [.completion [systemMsg, userMsg userHi]] :=
  ⟨rfl, rfl⟩

/-- C7 (amended): a raw payload that fails to parse terminates the request
with the 500 error body and no reconciliation; a payload that parses as a
JSON object — even one missing required fields, whose absent properties
coerce to `"undefined"` — is passed to the executor, and the executor's
serialized result (an error result whenever a creation call fails) is fed
back into the conversation as the tool-role message of the second
completion call.  (A payload parsing to `null` is outside both conjuncts:
there the program throws at parameter destructuring, past the executor's
internal try, and also answers 500 with no reconciliation.) -/
theorem post_malformed_args_split_behavior (env : PostEnv)
    (u : Option Json) (comp : CompletionMessage) (fc : ToolCall)
    (rest : List ToolCall)
    (hbody : (parseJson env.body).bind getUserMessage = .ok u)
    (hc1 : env.completion1 = .ok comp)
    (htc : comp.tool_calls = some (fc :: rest))
    (hty : fc.type = str "function") :
    (∀ e, parseJson fc.arguments = .error e →
        POST env = ([.completion [systemMsg, userMsg u]], jsonErr e))
    ∧ (∀ fields, parseJson fc.arguments = .ok (.obj fields) →
        fc.name = str "create_api_gateway" →
        ∃ mid, (POST env).1
          = .completion [systemMsg, userMsg u]
            :: (mid ++ [.completion [systemMsg, userMsg u, assistantToolMsg fc,
                 toolResultMsg fc.id
                   (createApiGateway (asArgs (.obj fields)) env.gw).2]])) := by
  constructor
  · intro e he
    simp [POST, hbody, hc1, htc, hty, he]
  · intro fields hargs hname
    refine ⟨(createApiGateway (asArgs (.obj fields)) env.gw).1.map
      ExtCall.gateway, ?_⟩
    rcases hc2 : env.completion2 with e | c2 <;>
      simp [POST, hbody, hc1, htc, hty, hargs, hname, hc2]

/-- Witness for the amended C7: the unparseable payload `nope` for the known
tool ends the request with the 500 error body and no reconciliation. -/
theorem post_malformed_args_split_behavior_witness :
    POST envBadArgs = ([.completion [systemMsg, userMsg userHi]],
      jsonErr (str "Unexpected token in JSON")) :=
  (post_malformed_args_split_behavior envBadArgs userHi (compWith fcBadArgs)
    fcBadArgs [] rfl rfl rfl rfl).1 (str "Unexpected token in JSON") rfl

/-- Counterexample to C8 as stated: a request whose JSON body is the empty
object (no `userMessage`) is not rejected with a client-error status — the
endpoint proceeds and, with a plain-text completion, answers 200 with a
success-shaped body. -/
theorem post_missing_userMessage_not_rejected :
    parseJson envNoUserMessage.body = .ok (.obj [])
    ∧ (POST envNoUserMessage).2 = jsonOk (str "hello")
    ∧ (POST envNoUserMessage).2.status = 200 :=
  ⟨rfl, rfl, rfl⟩

/-- C8 (amended): a request whose JSON body is an object missing
`userMessage` is not rejected: the endpoint proceeds to the first
completion call with an undefined user content, and every response it can
give has status 200 or 500 — never a 4xx client error. -/
theorem post_missing_userMessage_proceeds (env : PostEnv)
    (fields : List (Str × Json))
    (hbody : parseJson env.body = .ok (.obj fields))
    (hmissing : lookupField fields (str "userMessage") = none) :
    (∃ tail, (POST env).1 = .completion [systemMsg, userMsg none] :: tail)
    ∧ ((POST env).2.status = 200 ∨ (POST env).2.status = 500) := by
  have hb : (parseJson env.body).bind getUserMessage = .ok none := by
    simp [hbody, Except.bind, getUserMessage, hmissing]
  exact ⟨post_trace_head env none hb, post_status_cases env⟩

/-- Witness for the amended C8: the empty-object body proceeds to the
completion call and yields a 200 or 500 status. -/
theorem post_missing_userMessage_proceeds_witness :
    (∃ tail, (POST envNoUserMessage).1
        = .completion [systemMsg, userMsg none] :: tail)
    ∧ ((POST envNoUserMessage).2.status = 200
        ∨ (POST envNoUserMessage).2.status = 500) :=
  post_missing_userMessage_proceeds envNoUserMessage [] rfl rfl

end AssistantRoute
